import Mathlib

/-!

Verification of the HLK-LD6002 radar sensor protocol library
(src/sensoren/radar/HLK-LD6002/src/lib.rs) against its specification.

Shallow embedding conventions:
- Bytes are modelled as Nat. All byte values produced by the protocol are
  below 256; bitwise xor of two values below 256 stays below 256, so no
  masking is needed where xor is the only operation.
- f32 values are modelled by their IEEE-754 bit patterns (a Nat below
  2 ^ 32). The library performs no float arithmetic: decoding is the
  identity on bit patterns (f32::from_bits), and the only comparison is
  v > 0.0, embedded as f32GtZero on bit patterns.
- A byte source (the embedded_io Read / AsyncRead reader) is a List Nat.
  Every reading operation returns the parse result together with the
  remaining unread suffix of the source, which makes the number of
  consumed bytes observable. read_exact that hits end of input consumes
  whatever was available and fails with Eof, mirroring
  ReadExactError::UnexpectedEof.
-/

/-- Message type sent by the sensor, mirroring the MessageType enum. -/
inductive MessageTy where
  | Phase
  | Respiratory
  | Heartbeat
  | Distance
  deriving DecidableEq, Repr

/-- Error type for reading data from the sensor, mirroring LdError.
The byte sources modelled here are in-memory lists and never fail, so the
Read variant (wrapping the underlying source error) is uninhabited and
omitted. InvalidDataLength carries expected, got and the message type;
InvalidChecksum carries the location tag, got (calculated) and expected
(on-wire) bytes, in source field order. -/
inductive LdErr where
  | InvalidMessageType (code : Nat)
  | InvalidDataLength (expected : Nat) (got : Nat) (ty : MessageTy)
  | InvalidChecksum (ty : String) (got : Nat) (expected : Nat)
  | InvalidFrameStart (b : Nat)
  | Eof
  deriving DecidableEq, Repr

/-- Conversion from the big-endian u16 wire code, mirroring the
TryFromPrimitive derive with discriminants 0x0a13 .. 0x0a16. -/
def MessageTy.tryFromCode (code : Nat) : Option MessageTy :=
  if code = 0x0a13 then some .Phase
  else if code = 0x0a14 then some .Respiratory
  else if code = 0x0a15 then some .Heartbeat
  else if code = 0x0a16 then some .Distance
  else none

/-- Expected body length per message type, mirroring
MessageType::expected_length. -/
def MessageTy.expectedLength : MessageTy → Nat
  | .Phase => 12
  | .Respiratory => 4
  | .Heartbeat => 4
  | .Distance => 8

/-- XOR accumulation loop of the checksum function: result starts at 0 and
each byte is xor-ed into it, mirroring the for loop in checksum. -/
def checksumLoop (result : Nat) : List Nat → Nat
  | [] => result
  | b :: rest => checksumLoop (result ^^^ b) rest

/-- Checksum, mirroring the checksum function: xor-fold all bytes then
bitwise-complement.  For u8 values (below 256) the complement is
xor with 255, exactly the effect of the Rust operator on u8. -/
def checksum (data : List Nat) : Nat :=
  255 ^^^ checksumLoop 0 data

/-- Frame header, mirroring FrameHeader: sequence id, declared body
length, message type. -/
structure FrameHeader where
  seqId : Nat
  length : Nat
  ty : MessageTy
  deriving DecidableEq, Repr

/-- Big-endian combination of two bytes, mirroring u16::from_be_bytes. -/
def fromBe2 (hi lo : Nat) : Nat := hi * 256 + lo

/-- Header parsing from exactly seven raw bytes, mirroring
FrameHeader::parse. Byte d6 (the on-wire header checksum) is received but
never inspected: the verification code in the source is commented out. -/
def FrameHeader.parse (d0 d1 d2 d3 d4 d5 _d6 : Nat) : Except LdErr FrameHeader :=
  let tyCode := fromBe2 d4 d5
  match MessageTy.tryFromCode tyCode with
  | none => .error (.InvalidMessageType tyCode)
  | some ty => .ok { seqId := fromBe2 d0 d1, length := fromBe2 d2 d3, ty := ty }

/-- Reads one byte from the source (read_exact with a 1-byte buffer). -/
def readByte (src : List Nat) : Except LdErr Nat × List Nat :=
  match src with
  | [] => (.error .Eof, [])
  | b :: rest => (.ok b, rest)

/-- Reads exactly seven bytes from the source (read_exact with a 7-byte
buffer); on truncated input all remaining bytes are consumed and Eof is
returned. -/
def readBytes7 (src : List Nat) :
    Except LdErr (Nat × Nat × Nat × Nat × Nat × Nat × Nat) × List Nat :=
  match src with
  | d0 :: d1 :: d2 :: d3 :: d4 :: d5 :: d6 :: rest =>
    (.ok (d0, d1, d2, d3, d4, d5, d6), rest)
  | _ => (.error .Eof, [])

/-- Reads exactly n bytes from the source (read_exact into a slice of
length n); on truncated input all remaining bytes are consumed and Eof is
returned. -/
def readExact (n : Nat) (src : List Nat) : Except LdErr (List Nat) × List Nat :=
  if n ≤ src.length then (.ok (src.take n), src.drop n) else (.error .Eof, src.drop n)

/-- FrameHeader::read — reads 7 bytes then parses them. -/
def FrameHeader.readFrom (src : List Nat) : Except LdErr FrameHeader × List Nat :=
  match readBytes7 src with
  | (.error e, rest) => (.error e, rest)
  | (.ok (d0, d1, d2, d3, d4, d5, d6), rest) =>
    (FrameHeader.parse d0 d1 d2 d3 d4 d5 d6, rest)

/-- FrameHeader::read_async — identical to readFrom except that the byte
read suspends; over a deterministic list source the await is invisible. -/
def FrameHeader.readFromAsync (src : List Nat) : Except LdErr FrameHeader × List Nat :=
  match readBytes7 src with
  | (.error e, rest) => (.error e, rest)
  | (.ok (d0, d1, d2, d3, d4, d5, d6), rest) =>
    (FrameHeader.parse d0 d1 d2 d3 d4 d5 d6, rest)

/-- Frame body, mirroring FrameData<N>: the source stores a fixed
[u8; N] backing array plus a len field and only ever exposes the first
len bytes (AsRef); here data is exactly that exposed prefix and len its
length. -/
structure FrameData where
  data : List Nat
  len : Nat
  deriving DecidableEq, Repr

/-- FrameData::<N>::validate — rejects a declared length that exceeds the
capacity N or differs from the expected length of the message type. -/
def FrameData.validate (N : Nat) (header : FrameHeader) : Except LdErr Unit :=
  if N < header.length ∨ header.length ≠ header.ty.expectedLength then
    .error (.InvalidDataLength header.ty.expectedLength header.length header.ty)
  else
    .ok ()

/-- FrameData::<N>::read — validates the header, then reads exactly
header.length bytes. Validation happens before any byte is read, so a
validation failure leaves the source untouched. -/
def FrameData.readFrom (N : Nat) (src : List Nat) (header : FrameHeader) :
    Except LdErr FrameData × List Nat :=
  match FrameData.validate N header with
  | .error e => (.error e, src)
  | .ok _ =>
    match readExact header.length src with
    | (.error e, rest) => (.error e, rest)
    | (.ok bytes, rest) => (.ok { data := bytes, len := header.length }, rest)

/-- FrameData::<N>::read_async — identical to readFrom except that the
byte read suspends. -/
def FrameData.readFromAsync (N : Nat) (src : List Nat) (header : FrameHeader) :
    Except LdErr FrameData × List Nat :=
  match FrameData.validate N header with
  | .error e => (.error e, src)
  | .ok _ =>
    match readExact header.length src with
    | (.error e, rest) => (.error e, rest)
    | (.ok bytes, rest) => (.ok { data := bytes, len := header.length }, rest)

/-- A frame of data received from the sensor, mirroring Frame. -/
structure Frame where
  header : FrameHeader
  data : FrameData
  deriving DecidableEq, Repr

/-- Frame::read — magic byte, header, body (with capacity N = 16),
trailing checksum byte, checksum comparison. -/
def Frame.readFrom (src : List Nat) : Except LdErr Frame × List Nat :=
  match readByte src with
  | (.error e, rest) => (.error e, rest)
  | (.ok magic, rest) =>
    if magic ≠ 1 then (.error (.InvalidFrameStart magic), rest)
    else
      match FrameHeader.readFrom rest with
      | (.error e, rest1) => (.error e, rest1)
      | (.ok header, rest1) =>
        match FrameData.readFrom 16 rest1 header with
        | (.error e, rest2) => (.error e, rest2)
        | (.ok data, rest2) =>
          match readByte rest2 with
          | (.error e, rest3) => (.error e, rest3)
          | (.ok dataChecksum, rest3) =>
            let calculated := checksum data.data
            if dataChecksum ≠ calculated then
              (.error (.InvalidChecksum "body" calculated dataChecksum), rest3)
            else
              (.ok { header := header, data := data }, rest3)

/-- Frame::read_async — the same parsing sequence with suspending reads;
over a deterministic list source each await resolves immediately. -/
def Frame.readFromAsync (src : List Nat) : Except LdErr Frame × List Nat :=
  match readByte src with
  | (.error e, rest) => (.error e, rest)
  | (.ok magic, rest) =>
    if magic ≠ 1 then (.error (.InvalidFrameStart magic), rest)
    else
      match FrameHeader.readFromAsync rest with
      | (.error e, rest1) => (.error e, rest1)
      | (.ok header, rest1) =>
        match FrameData.readFromAsync 16 rest1 header with
        | (.error e, rest2) => (.error e, rest2)
        | (.ok data, rest2) =>
          match readByte rest2 with
          | (.error e, rest3) => (.error e, rest3)
          | (.ok dataChecksum, rest3) =>
            let calculated := checksum data.data
            if dataChecksum ≠ calculated then
              (.error (.InvalidChecksum "body" calculated dataChecksum), rest3)
            else
              (.ok { header := header, data := data }, rest3)

/-- The decoded message from the sensor, mirroring MessageBody; float
payloads are represented by their 32-bit patterns. -/
inductive MessageBody where
  | Phase (f0 f1 f2 : Nat)
  | Respiratory (rate : Nat)
  | Heartbeat (rate : Nat)
  | Distance (d : Option Nat)
  deriving DecidableEq, Repr

/-- Little-endian combination of four bytes into one 32-bit word, the
effect of bytemuck::cast_slice::<u8, u32> on a little-endian target
followed by f32::from_bits where applicable. -/
def le32 (b0 b1 b2 b3 : Nat) : Nat :=
  b0 + b1 * 256 + b2 * 65536 + b3 * 16777216

/-- Groups a byte list into little-endian 32-bit words, mirroring
cast_slice::<u8, u32> over the exposed body prefix. cast_slice requires
the byte length to be a multiple of 4 (it panics otherwise); every body
produced by a validated frame has length 12, 8 or 4, so the truncating
fallback for a ragged tail is never exercised there. -/
def toWords : List Nat → List Nat
  | b0 :: b1 :: b2 :: b3 :: rest => le32 b0 b1 b2 b3 :: toWords rest
  | _ => []

/-- Frame::body — decodes the body bytes according to (type, length). -/
def Frame.body (f : Frame) : Except LdErr MessageBody :=
  let numbers := toWords f.data.data
  match f.header.ty, f.data.len with
  | .Phase, 12 =>
    .ok (.Phase (numbers.getD 0 0) (numbers.getD 1 0) (numbers.getD 2 0))
  | .Respiratory, 4 => .ok (.Respiratory (numbers.getD 0 0))
  | .Heartbeat, 4 => .ok (.Heartbeat (numbers.getD 0 0))
  | .Distance, 8 =>
    .ok (.Distance (some (if numbers.getD 0 0 = 1 then numbers.getD 1 0 else 0)))
  | .Distance, 4 => .ok (.Distance none)
  | ty, len => .error (.InvalidDataLength ty.expectedLength len ty)

/-- One pull of the blocking stream: Iterator::next for MessageStream
always returns Some, carrying either a decoded message or the error, and
leaves the reader at the bytes after whatever Frame::read consumed. -/
def MessageStream.nextMsg (src : List Nat) : Except LdErr MessageBody × List Nat :=
  match Frame.readFrom src with
  | (.error e, rest) => (.error e, rest)
  | (.ok frame, rest) => (frame.body, rest)

/-- One pull of the suspending stream: AsyncMessageStream::next. -/
def AsyncMessageStream.nextMsg (src : List Nat) : Except LdErr MessageBody × List Nat :=
  match Frame.readFromAsync src with
  | (.error e, rest) => (.error e, rest)
  | (.ok frame, rest) => (frame.body, rest)

/-- The comparison v > 0.0 on an IEEE-754 single with bit pattern w: true
exactly when the sign bit is clear, the magnitude is nonzero, and w is
not a NaN (exponent all ones with nonzero mantissa); NaN > 0.0 is false. -/
def f32GtZero (w : Nat) : Bool :=
  decide (w / 2 ^ 31 % 2 = 0) && decide (w % 2 ^ 31 ≠ 0) &&
    ! (decide (w / 2 ^ 23 % 256 = 255) && decide (w % 2 ^ 23 ≠ 0))

/-- The latest-reading aggregator, mirroring Data; fields hold f32 bit
patterns, all defaulting to 0.0 (bit pattern 0). -/
structure Data where
  respiratory : Nat := 0
  distance : Nat := 0
  heartbeat : Nat := 0
  deriving DecidableEq, Repr

/-- Data::update — latches a field only on a strictly positive value; the
source match arms carry the guard rate > 0.0, and a guarded arm that
fails its guard falls through to the catch-all, leaving the state
unchanged. -/
def Data.update (d : Data) (message : MessageBody) : Data :=
  match message with
  | .Respiratory rate =>
    if f32GtZero rate then { d with respiratory := rate } else d
  | .Distance (some distance) =>
    if f32GtZero distance then { d with distance := distance } else d
  | .Heartbeat rate =>
    if f32GtZero rate then { d with heartbeat := rate } else d
  | _ => d

/-! Theorems about the claims. -/

/-- XOR-fold of a byte sequence, as the specification describes it:
fold all bytes with xor starting from 0. -/
def foldXor (b : List Nat) : Nat :=
  b.foldl (fun a x => a ^^^ x) 0

lemma checksumLoop_eq_foldl (r : Nat) (b : List Nat) :
    checksumLoop r b = b.foldl (fun a x => a ^^^ x) r := by
  induction b generalizing r with
  | nil => rfl
  | cons x xs ih => simp only [checksumLoop, List.foldl_cons, ih]

/-- C3: for every byte sequence b, checksum b equals the bitwise
complement (xor with the all-ones byte 255) of the XOR-fold of b, and the
checksum of the empty sequence is 0xFF = 255. checksum is a plain
function of its input, hence pure and deterministic. -/
theorem checksum_complement_of_foldXor :
    (∀ b : List Nat, checksum b = 255 ^^^ foldXor b) ∧ checksum [] = 255 := by
  constructor
  · intro b
    simp only [checksum, foldXor, checksumLoop_eq_foldl]
  · rfl

/-- C8: header parsing is noninterferent with respect to the header
checksum byte: two 7-byte header blocks that differ only in byte 6 parse
to the same result, because FrameHeader.parse never inspects byte 6 (the
verification code in the source is commented out). -/
theorem frameHeader_parse_ignores_checksum_byte :
    ∀ d0 d1 d2 d3 d4 d5 x y : Nat,
      FrameHeader.parse d0 d1 d2 d3 d4 d5 x = FrameHeader.parse d0 d1 d2 d3 d4 d5 y := by
  intro d0 d1 d2 d3 d4 d5 x y
  rfl

/-- C7: a header whose declared length differs from its type's expected
length (or exceeds the capacity 16) makes body reading fail with
InvalidDataLength carrying expected = the type's expected length, got =
the declared length, and the type, and the source is left untouched (no
body bytes consumed). -/
theorem frameData_read_invalid_length (header : FrameHeader) (src : List Nat)
    (h : header.length ≠ header.ty.expectedLength ∨ 16 < header.length) :
    FrameData.readFrom 16 src header =
      (.error (.InvalidDataLength header.ty.expectedLength header.length header.ty), src) := by
  unfold FrameData.readFrom FrameData.validate
  rw [if_pos h.symm]

/-- Witness for C7: a header declaring length 6 for Respiratory (expected
4) fails with InvalidDataLength 4 6 Respiratory, consuming nothing. -/
theorem frameData_read_invalid_length_witness :
    FrameData.readFrom 16 [1, 2, 3] { seqId := 0, length := 6, ty := .Respiratory } =
      (.error (.InvalidDataLength 4 6 .Respiratory), [1, 2, 3]) :=
  frameData_read_invalid_length { seqId := 0, length := 6, ty := .Respiratory } [1, 2, 3]
    (by decide)

/-- A frame as produced for an 8-byte Distance body with the given eight
body bytes (declared and actual length 8, type Distance). -/
def dist8Frame (b0 b1 b2 b3 b4 b5 b6 b7 : Nat) : Frame :=
  { header := { seqId := 0, length := 8, ty := .Distance },
    data := { data := [b0, b1, b2, b3, b4, b5, b6, b7], len := 8 } }

/-- C1 counterexample: the 8-byte Distance body [0,0,0,0,0,0,0,0]
(flag word 0) decodes to Distance (some 0) — the value-present variant
carrying the bit pattern of 0.0 — and not to Distance none as the claim
states. -/
theorem dist8_zero_body_not_none :
    Frame.body (dist8Frame 0 0 0 0 0 0 0 0) =
        Except.ok (MessageBody.Distance (some 0)) ∧
      Frame.body (dist8Frame 0 0 0 0 0 0 0 0) ≠
        Except.ok (MessageBody.Distance none) := by
  have h1 : Frame.body (dist8Frame 0 0 0 0 0 0 0 0) =
      Except.ok (MessageBody.Distance (some 0)) := rfl
  refine ⟨h1, ?_⟩
  rw [h1]
  simp

/-- C1 amended: an 8-byte Distance body whose flag word is 1 followed by
the 32-bit pattern of a float v decodes to Distance (some v); an 8-byte
Distance body whose flag word is 0 decodes to Distance (some 0.0) (bit
pattern 0), not to Distance none; in particular the body
[0,0,0,0, 0,0,0,0] decodes to Distance (some 0.0). -/
theorem dist8_decode :
    (∀ b4 b5 b6 b7 : Nat,
        Frame.body (dist8Frame 1 0 0 0 b4 b5 b6 b7) =
          Except.ok (MessageBody.Distance (some (le32 b4 b5 b6 b7)))) ∧
      (∀ b4 b5 b6 b7 : Nat,
        Frame.body (dist8Frame 0 0 0 0 b4 b5 b6 b7) =
          Except.ok (MessageBody.Distance (some 0))) := by
  constructor
  · intro b4 b5 b6 b7
    rfl
  · intro b4 b5 b6 b7
    rfl

/-- C2 counterexample: a complete on-wire frame of type Distance with
declared length 4, a 4-byte body and a correct trailing body checksum
(checksum [0,0,0,0] = 0xFF) is rejected by Frame::read with
InvalidDataLength expected 8, got 4 — Frame::read does not succeed, and
the body bytes and checksum byte are left unconsumed. -/
theorem frame_read_distance_len4_rejected :
    Frame.readFrom [1, 0, 0, 0, 4, 0x0a, 0x16, 0, 0, 0, 0, 0, 0xFF] =
      (.error (.InvalidDataLength 8 4 .Distance), [0, 0, 0, 0, 0xFF]) := by
  rfl

/-- C2 amended: body length 4 is not legal for message type Distance in
Frame::read: validation requires the declared length to equal the
expected length 8, so every frame declaring length 4 for Distance fails
with InvalidDataLength expected 8, got 4, before any body byte is read.
The decoder itself does map a 4-byte Distance body to Distance none, but
that branch is unreachable through Frame::read. -/
theorem frame_read_distance_len4 :
    (∀ (s1 s2 hc : Nat) (rest : List Nat),
        Frame.readFrom (1 :: s1 :: s2 :: 0 :: 4 :: 0x0a :: 0x16 :: hc :: rest) =
          (.error (.InvalidDataLength 8 4 .Distance), rest)) ∧
      (∀ b0 b1 b2 b3 : Nat,
        Frame.body
            { header := { seqId := 0, length := 4, ty := .Distance },
              data := { data := [b0, b1, b2, b3], len := 4 } } =
          Except.ok (MessageBody.Distance none)) := by
  exact ⟨fun s1 s2 hc rest => rfl, fun b0 b1 b2 b3 => rfl⟩

lemma readExact_four (b0 b1 b2 b3 : Nat) (rest : List Nat) :
    readExact 4 (b0 :: b1 :: b2 :: b3 :: rest) = (.ok [b0, b1, b2, b3], rest) := by
  unfold readExact
  rw [if_pos (by simp)]
  simp [List.take, List.drop]

/-- C4: pulling one message from a stream whose source starts with the
13-byte frame 0x01, two arbitrary sequence-id bytes, length 0x0004, type
0x0a15 (Heartbeat), an arbitrary header checksum byte, the little-endian
bytes 00 00 91 42 of the float 72.5, and the matching body checksum 0x2c,
returns Heartbeat 72.5 (bit pattern 0x42910000) with no error and
consumes exactly those 13 bytes, for every sequence id, header checksum
byte and source continuation. -/
theorem messageStream_heartbeat_72_5 :
    ∀ (seqHi seqLo hdrChk : Nat) (rest : List Nat),
      MessageStream.nextMsg
          (1 :: seqHi :: seqLo :: 0 :: 4 :: 0x0a :: 0x15 :: hdrChk ::
            0x00 :: 0x00 :: 0x91 :: 0x42 :: 0x2c :: rest) =
        (.ok (.Heartbeat 0x42910000), rest) := by
  intro seqHi seqLo hdrChk rest
  simp only [MessageStream.nextMsg, Frame.readFrom, readByte, FrameHeader.readFrom, readBytes7,
    FrameHeader.parse, fromBe2, MessageTy.tryFromCode, FrameData.readFrom, FrameData.validate,
    MessageTy.expectedLength]
  norm_num [readExact_four, Frame.body, toWords, le32, checksum, checksumLoop]
  rfl

/-- C6: the blocking and suspending variants are behaviourally identical:
on every input byte sequence, Frame::read_async returns the same result
(same frame or same error) and the same remaining source — hence consumes
the same number of bytes — as Frame::read, and likewise the two streams'
read-next-message operations agree. -/
theorem sync_async_equivalent :
    ∀ src : List Nat,
      Frame.readFromAsync src = Frame.readFrom src ∧
        AsyncMessageStream.nextMsg src = MessageStream.nextMsg src := by
  intro src
  exact ⟨rfl, rfl⟩

/-- C9: Data::update latches a reading exactly when it is strictly
positive. For every state and every bit-pattern value: a Respiratory,
Heartbeat or Distance(some _) message overwrites exactly its own field
when the carried value compares strictly greater than 0.0 (f32GtZero
true), and leaves the state entirely unchanged when it does not
(f32GtZero false, covering 0.0, negative values and NaN) or when the
message is Distance none. Concretely: 72.5 (0x42910000) and 80.0
(0x42A00000) are positive, while 0.0, -1.0 (0xBF800000) and a NaN
(0x7FC00000) are not; updating a fresh state with Heartbeat 72.5 sets
heartbeat to 72.5, a subsequent Heartbeat 0.0 leaves the state unchanged,
and a subsequent Heartbeat 80.0 sets heartbeat to 80.0. -/
theorem data_update_latch :
    (∀ (d : Data) (r : Nat),
        Data.update d (.Respiratory r) = { d with respiratory := r } ∧ f32GtZero r = true ∨
          Data.update d (.Respiratory r) = d ∧ f32GtZero r = false) ∧
      (∀ (d : Data) (r : Nat),
        Data.update d (.Heartbeat r) = { d with heartbeat := r } ∧ f32GtZero r = true ∨
          Data.update d (.Heartbeat r) = d ∧ f32GtZero r = false) ∧
      (∀ (d : Data) (v : Nat),
        Data.update d (.Distance (some v)) = { d with distance := v } ∧ f32GtZero v = true ∨
          Data.update d (.Distance (some v)) = d ∧ f32GtZero v = false) ∧
      (∀ d : Data, Data.update d (.Distance none) = d) ∧
      f32GtZero 0x42910000 = true ∧
      f32GtZero 0x42A00000 = true ∧
      f32GtZero 0 = false ∧
      f32GtZero 0xBF800000 = false ∧
      f32GtZero 0x7FC00000 = false ∧
      (Data.update ⟨0, 0, 0⟩ (.Heartbeat 0x42910000)).heartbeat = 0x42910000 ∧
      Data.update (Data.update ⟨0, 0, 0⟩ (.Heartbeat 0x42910000)) (.Heartbeat 0) =
        Data.update ⟨0, 0, 0⟩ (.Heartbeat 0x42910000) ∧
      (Data.update (Data.update (Data.update ⟨0, 0, 0⟩ (.Heartbeat 0x42910000)) (.Heartbeat 0))
          (.Heartbeat 0x42A00000)).heartbeat = 0x42A00000 := by
  refine ⟨?_, ?_, ?_, fun d => rfl, by decide, by decide, by decide, by decide, by decide,
    by decide, by decide, by decide⟩
  all_goals
    intro d r
    cases h : f32GtZero r
    · right
      exact ⟨by simp [Data.update, h], rfl⟩
    · left
      exact ⟨by simp [Data.update, h], rfl⟩

/-- C10: Data::update modifies at most one field per call, and only the
field corresponding to the message variant: a Respiratory message leaves
the distance and heartbeat fields unchanged, a Heartbeat message leaves
the respiratory and distance fields unchanged, a Distance message leaves
the respiratory and heartbeat fields unchanged, and Phase messages —
which have no corresponding field — always leave the state entirely
unchanged. -/
theorem data_update_frame_effect :
    ∀ d : Data,
      (∀ r : Nat,
        (Data.update d (.Respiratory r)).distance = d.distance ∧
          (Data.update d (.Respiratory r)).heartbeat = d.heartbeat) ∧
      (∀ r : Nat,
        (Data.update d (.Heartbeat r)).respiratory = d.respiratory ∧
          (Data.update d (.Heartbeat r)).distance = d.distance) ∧
      (∀ v : Option Nat,
        (Data.update d (.Distance v)).respiratory = d.respiratory ∧
          (Data.update d (.Distance v)).heartbeat = d.heartbeat) ∧
      (∀ f0 f1 f2 : Nat, Data.update d (.Phase f0 f1 f2) = d) := by
  intro d
  refine ⟨?_, ?_, ?_, fun f0 f1 f2 => rfl⟩
  · intro r
    cases h : f32GtZero r <;> simp [Data.update, h]
  · intro r
    cases h : f32GtZero r <;> simp [Data.update, h]
  · intro v
    cases v with
    | none => exact ⟨rfl, rfl⟩
    | some v => cases h : f32GtZero v <;> simp [Data.update, h]

lemma validate_ok_length {N : Nat} {header : FrameHeader} {u : Unit}
    (h : FrameData.validate N header = .ok u) :
    header.length = header.ty.expectedLength := by
  unfold FrameData.validate at h
  split at h
  · exact absurd h (by simp)
  · rename_i hcond
    push_neg at hcond
    exact hcond.2

lemma frameData_read_len {N : Nat} {src : List Nat} {header : FrameHeader}
    {data : FrameData} {rest : List Nat}
    (h : FrameData.readFrom N src header = (.ok data, rest)) :
    data.len = header.ty.expectedLength := by
  unfold FrameData.readFrom at h
  split at h
  · simp at h
  · rename_i u heq
    split at h
    · simp at h
    · rename_i bytes rest2 heq2
      simp at h
      obtain ⟨hdata, hrest⟩ := h
      rw [← hdata]
      exact validate_ok_length heq

/-- C5: on every input byte sequence on which Frame::read succeeds, body
decoding cannot fail: the produced frame's body length equals its type's
expected length (12, 4, 4 or 8), each of which the decoder handles, so
the InvalidDataLength fall-through branch of Frame::body is unreachable
for frames produced by Frame::read. -/
theorem frame_read_body_ok (src : List Nat) (frame : Frame) (rest : List Nat)
    (h : Frame.readFrom src = (.ok frame, rest)) :
    ∃ m, frame.body = Except.ok m := by
  have hlen : frame.data.len = frame.header.ty.expectedLength := by
    unfold Frame.readFrom at h
    split at h
    · simp at h
    · split at h
      · simp at h
      · split at h
        · simp at h
        · rename_i header rest1 heq1
          split at h
          · simp at h
          · rename_i data rest2 heq2
            split at h
            · simp at h
            · dsimp only at h
              split at h
              · simp at h
              · have hfd := frameData_read_len heq2
                simp at h
                obtain ⟨hframe, hrest⟩ := h
                rw [← hframe]
                exact hfd
  obtain ⟨⟨sid, length, ty⟩, ⟨bytes, len⟩⟩ := frame
  simp only at hlen
  subst hlen
  cases ty
  all_goals exact ⟨_, rfl⟩

/-- Witness for C5: the Heartbeat frame parsed from the concrete 13-byte
input of the end-to-end example decodes successfully. -/
theorem frame_read_body_ok_witness :
    ∃ m,
      Frame.body
          { header := { seqId := 2311, length := 4, ty := .Heartbeat },
            data := { data := [0, 0, 0x91, 0x42], len := 4 } } =
        Except.ok m :=
  frame_read_body_ok [1, 9, 7, 0, 4, 0x0a, 0x15, 99, 0, 0, 0x91, 0x42, 0x2c]
    { header := { seqId := 2311, length := 4, ty := .Heartbeat },
      data := { data := [0, 0, 0x91, 0x42], len := 4 } } [] rfl
